import Mathlib

/-!
Shallow embedding of the cardano-toolbox command-line utilities.

Each definition mirrors one function of the TypeScript sources:
  * `getNetwork`              — src/config.ts
  * `getNetworkAndApiKey`     — network-and-api-handler (credential lookup)
  * `scanBalanceArgs`         — argument loop of check-wallet-balance.ts `main`
  * `checkWalletBalanceMain`  — driver of check-wallet-balance.ts
  * `getWalletBalanceReport`  — balance formatting of check-wallet-balance.ts
  * `parseArgsList`           — `parseArgs` of masumi-payment-check.ts
  * `classifyOnChainState`    — status interpretation of masumi-payment-check.ts
  * `resolveFileConfig`, `masumiCheckMainFile` — `--file` branch of the same driver
  * `selectWallet`, `sendAda`, `sendAdaMainExit` — send-ada tool

Host preferences and the process environment are passed as explicit
parameters; `Option String` encodes a JavaScript string that may be
`undefined` (with `""` being the other falsy string value).
-/

namespace CardanoToolbox

/-- The process environment: an association list from variable names to values. -/
def Env : Type := List (String × String)

/-- `process.env[k]`: the value of the first binding of `k`, if any. -/
def envLookup (env : Env) (k : String) : Option String :=
  (List.find? (fun p => p.1 = k) env).map Prod.snd

/-- `String.prototype.toLowerCase` restricted to its ASCII behaviour,
character by character (the inputs of interest are ASCII). -/
def strToLower (s : String) : String := String.mk (s.data.map Char.toLower)

/-- `String.prototype.toUpperCase` restricted to its ASCII behaviour. -/
def strToUpper (s : String) : String := String.mk (s.data.map Char.toUpper)

/-- `String.prototype.startsWith`, computed on the character lists. -/
def strStartsWith (s pre : String) : Bool := List.isPrefixOf pre.data s.data

/-- `arg.substring(n)`: drop the first `n` characters. -/
def strDrop (s : String) (n : Nat) : String := String.mk (s.data.drop n)

/-- Steps 2-3 of `getNetwork` (src/config.ts): lower-case the `NETWORK`
environment variable, keep it if canonical, otherwise default to `preprod`. -/
def getNetworkFromEnv (envNETWORK : Option String) : String :=
  match Option.map strToLower envNETWORK with
  | some e => if e = "mainnet" ∨ e = "preprod" ∨ e = "preview" then e else "preprod"
  | none => "preprod"

/-- `getNetwork` (src/config.ts).  `hostPref` is the Raycast preference value:
`none` when the host is absent or provides no value, `some ""` when it provides
an empty (falsy) string. -/
def getNetwork (hostPref : Option String) (envNETWORK : Option String) : String :=
  match hostPref with
  | some p => if p ≠ "" then p else getNetworkFromEnv envNETWORK
  | none => getNetworkFromEnv envNETWORK

/-- `getNetworkAndApiKey` (network-and-api-handler).  `Except.error v` models
`process.exit(1)` after printing an error message naming the variable `v`. -/
def getNetworkAndApiKey (hostPref envNETWORK : Option String) (env : Env) :
    Except String (String × String) :=
  match envLookup env ("BLOCKFROST_API_KEY_" ++ strToUpper (getNetwork hostPref envNETWORK)) with
  | none => Except.error ("BLOCKFROST_API_KEY_" ++ strToUpper (getNetwork hostPref envNETWORK))
  | some apiKey =>
      if apiKey = "" then
        Except.error ("BLOCKFROST_API_KEY_" ++ strToUpper (getNetwork hostPref envNETWORK))
      else Except.ok (getNetwork hostPref envNETWORK, apiKey)

/-- `parseArgs` (masumi-payment-check.ts lines 60-75): scan the argument list;
a token starting with `--` that has a following token records
(token without the two dashes, following token) and skips both; every other
token, and a trailing flag with no follower, records nothing. -/
def parseArgsList : List String → List (String × String)
  | [] => []
  | [_] => []
  | a :: b :: rest =>
    if strStartsWith a "--" then (strDrop a 2, b) :: parseArgsList rest
    else parseArgsList (b :: rest)

/-- Reading `parsed[key]` from the object built by `parseArgs`: the value of
the last assignment of `key`, if any. -/
def lookupArg (parsed : List (String × String)) (k : String) : Option String :=
  Option.map Prod.snd (List.find? (fun p => p.1 = k) parsed.reverse)

/-- The status vocabulary the payment-check driver distinguishes. -/
inductive PaymentStatus where
  | success : PaymentStatus
  | failed : PaymentStatus
  | pending : PaymentStatus
deriving DecidableEq

/-- The on-chain states the payment-check driver classifies as failed
(masumi-payment-check.ts line 191). -/
def failedStates : List String :=
  ["FundsOrDatumInvalid", "RefundRequested", "Disputed", "RefundWithdrawn", "DisputedWithdrawn"]

/-- Status interpretation of masumi-payment-check.ts lines 184-196.
`none` models a `null` or absent `onChainState`; the guard
`(os.getD "") ≠ ""` mirrors the JavaScript truthiness test
`onChainState && [...].includes(onChainState)`. -/
def classifyOnChainState (os : Option String) : PaymentStatus :=
  if os = some "FundsLocked" then PaymentStatus.success
  else if os = some "ResultSubmitted" ∨ os = some "Withdrawn" then PaymentStatus.success
  else if (os.getD "") ≠ "" ∧ (os.getD "") ∈ failedStates then PaymentStatus.failed
  else PaymentStatus.pending

/-- One entry of the Blockfrost address-info `amount` list. -/
structure Amount where
  unit : String
  quantity : String
deriving DecidableEq

/-- `Number(s)` for a string of decimal digits; `none` models `NaN` for
anything else (the API returns decimal quantity strings). -/
def strToNat (s : String) : Option Nat :=
  if s.data ≠ [] ∧ s.data.all Char.isDigit then
    some (s.data.foldl (fun n c => n * 10 + (c.toNat - 48)) 0)
  else none

/-- The `<quantity> <unit>` part of a non-lovelace asset report line. -/
def assetEntry (a : Amount) : String := a.quantity ++ " " ++ a.unit

/-- The full console line `  - <quantity> <unit>` printed per other asset
(check-wallet-balance.ts line 27). -/
def assetLine (a : Amount) : String := "  - " ++ assetEntry a

/-- One iteration of the amount loop of `getWalletBalance`
(check-wallet-balance.ts lines 15-21): a lovelace entry overwrites the ADA
balance with `Number(quantity) / 1_000_000` (`none` models `NaN`); any other
entry is appended to the other-assets list. -/
def balanceStep (acc : Option ℚ × List Amount) (a : Amount) : Option ℚ × List Amount :=
  if a.unit = "lovelace" then
    (Option.map (fun n => (n : ℚ) / 1000000) (strToNat a.quantity), acc.2)
  else (acc.1, acc.2 ++ [a])

/-- The report of `getWalletBalance` (check-wallet-balance.ts lines 11-29):
the ADA balance (initially `0`) and the printed asset lines, in order. -/
def getWalletBalanceReport (amounts : List Amount) : Option ℚ × List String :=
  ((amounts.foldl balanceStep (some 0, [])).1,
   ((amounts.foldl balanceStep (some 0, [])).2).map assetLine)

/-- The argument loop of check-wallet-balance.ts `main` (lines 54-65),
threading the `address` and `networkOverride` variables: `--address` and
`--network` with a following token consume it; any token not starting with
`--` is assigned to `address` (legacy positional support). -/
def scanBalanceArgs : String → String → List String → String × String
  | address, net, [] => (address, net)
  | address, net, [a] => if !(strStartsWith a "--") then (a, net) else (address, net)
  | address, net, a :: b :: rest =>
    if a = "--address" then scanBalanceArgs b net rest
    else if a = "--network" then scanBalanceArgs address b rest
    else if !(strStartsWith a "--") then scanBalanceArgs a net (b :: rest)
    else scanBalanceArgs address net (b :: rest)

/-- The sequence of values assigned to `address` by the scan of
check-wallet-balance.ts lines 54-65, in order: `--address` values and
non-flag tokens. -/
def addrUpdates : List String → List String
  | [] => []
  | [a] => if !(strStartsWith a "--") then [a] else []
  | a :: b :: rest =>
    if a = "--address" then b :: addrUpdates rest
    else if a = "--network" then addrUpdates rest
    else if !(strStartsWith a "--") then a :: addrUpdates (b :: rest)
    else addrUpdates (b :: rest)

/-- The arguments of the single external call `getWalletBalance(address,
finalNetwork, apiKey)` made by the balance-check driver. -/
structure BalanceCall where
  address : String
  network : String
  apiKey : String
deriving DecidableEq

/-- The balance-check driver (check-wallet-balance.ts `main`, lines 47-87) up
to its single external call: parse arguments, require an address, resolve
network and credential, apply the `--network` override when canonical, and
return the argument triple of the external call.  `Except.error` models
`process.exit(1)` with the given message. -/
def checkWalletBalanceMain (args : List String) (hostPref envNETWORK : Option String)
    (env : Env) : Except String BalanceCall :=
  match scanBalanceArgs "" "" args with
  | (address, networkOverride) =>
    if address = "" then Except.error "Wallet address is required"
    else
      match getNetworkAndApiKey hostPref envNETWORK env with
      | Except.error e => Except.error e
      | Except.ok (network, apiKey) =>
          Except.ok (BalanceCall.mk address
            (if networkOverride ≠ "" ∧
                (networkOverride = "mainnet" ∨ networkOverride = "preprod" ∨
                 networkOverride = "preview")
             then networkOverride else network)
            apiKey)

/-- An environment holding distinct Blockfrost keys for preprod and mainnet. -/
def envBothKeys : Env :=
  [("BLOCKFROST_API_KEY_PREPROD", "pp-key"), ("BLOCKFROST_API_KEY_MAINNET", "mm-key")]

/-- JavaScript falsiness of a possibly-undefined string: `undefined` and `""`
are the falsy string values. -/
def isFalsy : Option String → Bool
  | none => true
  | some s => s == ""

/-- `a || b` on possibly-undefined strings. -/
def jsOr (a b : Option String) : Option String :=
  match a with
  | some s => if s = "" then b else some s
  | none => b

/-- `a || b` where the right operand is a present string. -/
def jsOrStr (a : Option String) (b : String) : String :=
  match a with
  | some s => if s = "" then b else s
  | none => b

/-- The shape of a `config` object in a payment-output JSON file: each field
may be absent. -/
structure JsConfig where
  paymentServiceUrl : Option String
  apiKey : Option String
  network : Option String
deriving DecidableEq

/-- The parts of a loaded payment-output file that the check driver reads:
the `config` key (absent or an object) and
`response.data.blockchainIdentifier`. -/
structure FileData where
  config : Option JsConfig
  blockchainIdentifier : Option String
deriving DecidableEq

/-- The three `MASUMI_*` environment variables the payment-check driver can
fall back to. -/
structure MasumiEnv where
  MASUMI_PAYMENT_SERVICE_URL : Option String
  MASUMI_API_KEY : Option String
  MASUMI_NETWORK : Option String
deriving DecidableEq

/-- Lines 102-106 of masumi-payment-check.ts:
`config = fileData.config || {paymentServiceUrl: fileData.config?.paymentServiceUrl ||
env..., apiKey: ..., network: ... || 'Preprod'}`. -/
def resolveFileConfig (fileData : FileData) (env : MasumiEnv) : JsConfig :=
  match fileData.config with
  | some c => c
  | none =>
      JsConfig.mk
        (jsOr (Option.bind fileData.config JsConfig.paymentServiceUrl)
          env.MASUMI_PAYMENT_SERVICE_URL)
        (jsOr (Option.bind fileData.config JsConfig.apiKey) env.MASUMI_API_KEY)
        (jsOr (Option.bind fileData.config JsConfig.network)
          (jsOr env.MASUMI_NETWORK (some "Preprod")))

/-- The ways the `--file` branch of the payment-check driver can leave its
configuration phase. -/
inductive CheckOutcome where
  | exitNoIdentifier : CheckOutcome
  | exitMissingParam (key : String) : CheckOutcome
  | proceed (config : JsConfig) (paymentIdentifier : String) : CheckOutcome
deriving DecidableEq

/-- The `--file` branch of masumi-payment-check.ts `main` (lines 97-150):
resolve the configuration, require a blockchain identifier, then validate
`paymentServiceUrl` and `apiKey` in that order, exiting with status 1 and a
message naming the first missing parameter. -/
def masumiCheckMainFile (fileData : FileData) (env : MasumiEnv) : CheckOutcome :=
  match resolveFileConfig fileData env with
  | config =>
    if isFalsy fileData.blockchainIdentifier then CheckOutcome.exitNoIdentifier
    else if isFalsy config.paymentServiceUrl then
      CheckOutcome.exitMissingParam "paymentServiceUrl"
    else if isFalsy config.apiKey then CheckOutcome.exitMissingParam "apiKey"
    else CheckOutcome.proceed config (Option.getD fileData.blockchainIdentifier "")

/-- `String.prototype.includes`, computed on character lists. -/
def listContainsSeq (pat : List Char) : List Char → Bool
  | [] => List.isPrefixOf pat []
  | c :: rest => List.isPrefixOf pat (c :: rest) || listContainsSeq pat rest

/-- `s.includes(sub)`. -/
def strIncludes (s sub : String) : Bool := listContainsSeq sub.data s.data

/-- `String.prototype.trim`, computed on character lists. -/
def strTrim (s : String) : String :=
  String.mk (((s.data.dropWhile Char.isWhitespace).reverse.dropWhile Char.isWhitespace).reverse)

/-- `s.split(' ')`: split at every single space, keeping empty pieces. -/
def strSplitSpace (s : String) : List String :=
  (List.splitOn ' ' s.data).map String.mk

/-- `convertNetworkToId` (send-ada tool): 1 for mainnet, 0 otherwise. -/
def convertNetworkToId (network : String) : Nat :=
  if strToLower network = "mainnet" then 1 else 0

/-- The key material a MeshWallet is constructed from. -/
inductive WalletKey where
  | mnemonicWords (words : List String) : WalletKey
  | cliPayment (privateKeyHex : String) : WalletKey
deriving DecidableEq

/-- A constructed wallet: its network id and key. -/
structure Wallet where
  networkId : Nat
  key : WalletKey
deriving DecidableEq

/-- `createWalletFromMnemonic` (send-ada tool): trim the phrase and split on
single spaces. -/
def createWalletFromMnemonic (mnemonic : String) (network : String) : Wallet :=
  Wallet.mk (convertNetworkToId network) (WalletKey.mnemonicWords (strSplitSpace (strTrim mnemonic)))

/-- `createWalletFromSkey` (send-ada tool): extract `cborHex` from the JSON
skey content (`parseCborHex` stands for `JSON.parse(...).cborHex`, which may
throw), require the `5820` prefix and length 68, and keep the remaining 64
hex characters as the private key. -/
def createWalletFromSkey (parseCborHex : String → Except String String)
    (skeyContent : String) (network : String) : Except String Wallet :=
  match parseCborHex skeyContent with
  | Except.error e => Except.error e
  | Except.ok cborHex =>
      if ¬(strStartsWith cborHex "5820" = true) ∨ ¬(cborHex.data.length = 68) then
        Except.error "Invalid skey format"
      else
        Except.ok (Wallet.mk (convertNetworkToId network)
          (WalletKey.cliPayment (strDrop cborHex 4)))

/-- The options record taken by `sendAda` (built by its CLI `main`). -/
structure SendAdaOptions where
  recipientAddress : String
  amountAda : ℚ
  skeyFile : Option String
  skey : Option String
  mnemonic : Option String
  network : Option String

/-- The external world of one `sendAda` run: the credential resolution
result, file reads, skey JSON parsing, and the wallet SDK calls.  An
`Except.error` models a thrown exception (caught by `sendAda`), except for
`networkAndApiKey` whose error is a direct `process.exit(1)`. -/
structure SendAdaExtern where
  networkAndApiKey : Except String (String × String)
  readFile : String → Except String String
  parseCborHex : String → Except String String
  getUtxos : Wallet → List String
  getBalanceLovelace : Wallet → Nat
  submitTx : Wallet → String → Int → Except String String

/-- Result of running a piece of the process: either `process.exit code` or a
returned value (with the process continuing). -/
inductive ProcResult (α : Type) where
  | exit (code : Nat) : ProcResult α
  | ret (v : α) : ProcResult α
deriving DecidableEq

/-- Lines 79-107 of the send-ada tool: choose the signing method.
`options.mnemonic` (when truthy) wins; a mnemonic that looks like a path
(contains `.mnemonic` or starts with `./` or `/`) is read from disk; else
`options.skeyFile`, else `options.skey`; with none, throw. -/
def selectWallet (ext : SendAdaExtern) (opts : SendAdaOptions) (finalNetwork : String) :
    Except String Wallet :=
  if isFalsy opts.mnemonic = false then
    if strIncludes (Option.getD opts.mnemonic "") ".mnemonic" ||
       strStartsWith (Option.getD opts.mnemonic "") "./" ||
       strStartsWith (Option.getD opts.mnemonic "") "/" then
      match ext.readFile (Option.getD opts.mnemonic "") with
      | Except.error e =>
          Except.error ("Failed to read mnemonic file: " ++ Option.getD opts.mnemonic "" ++ ". " ++ e)
      | Except.ok content =>
          Except.ok (createWalletFromMnemonic (strTrim content) finalNetwork)
    else Except.ok (createWalletFromMnemonic (Option.getD opts.mnemonic "") finalNetwork)
  else if isFalsy opts.skeyFile = false then
    match ext.readFile (Option.getD opts.skeyFile "") with
    | Except.error e => Except.error e
    | Except.ok content => createWalletFromSkey ext.parseCborHex content finalNetwork
  else if isFalsy opts.skey = false then
    createWalletFromSkey ext.parseCborHex (Option.getD opts.skey "") finalNetwork
  else Except.error "No signing method provided. Use --skey-file, --skey, or --mnemonic"

/-- `sendAda` (send-ada tool, lines 68-182).  Every thrown error of the try
block is caught and turned into `ret none`; only the credential lookup's own
`process.exit(1)` escapes as an exit. -/
def sendAda (ext : SendAdaExtern) (opts : SendAdaOptions) : ProcResult (Option String) :=
  match ext.networkAndApiKey with
  | Except.error _ => ProcResult.exit 1
  | Except.ok (network, _) =>
      match selectWallet ext opts (jsOrStr opts.network network) with
      | Except.error _ => ProcResult.ret none
      | Except.ok wallet =>
          if ext.getUtxos wallet = [] then ProcResult.ret none
          else if ((ext.getBalanceLovelace wallet : ℚ) / 1000000) < opts.amountAda then
            ProcResult.ret none
          else
            match ext.submitTx wallet opts.recipientAddress
                (Int.floor (opts.amountAda * 1000000)) with
            | Except.error _ => ProcResult.ret none
            | Except.ok txHash => ProcResult.ret (some txHash)

/-- Lines 237-239 of the send-ada CLI: warn when more than one of
`--skey-file`, `--skey`, `--mnemonic` is provided
(`[skeyFile, skey, mnemonic].filter(Boolean).length > 1`). -/
def sendAdaWarnsMultiple (skeyFileArg skeyArg mnemonicArg : String) : Bool :=
  decide (1 < (List.filter (fun s => !(s == "")) [skeyFileArg, skeyArg, mnemonicArg]).length)

/-- The send-ada CLI `main` (lines 185-262) reduced to its exit code: the
four validations exit 1; afterwards `sendAda`'s result is ignored and the
driver prints `Finished.` and ends with status 0 unless `sendAda` itself
exited. -/
def sendAdaMainExit (ext : SendAdaExtern) (recipientAddress : String)
    (amountAda : Option ℚ) (skeyFileArg skeyArg mnemonicArg networkOverride : String) : Nat :=
  if recipientAddress = "" then 1
  else
    match amountAda with
    | none => 1
    | some amt =>
      if amt ≤ 0 then 1
      else if skeyFileArg = "" ∧ skeyArg = "" ∧ mnemonicArg = "" then 1
      else if networkOverride ≠ "" ∧
          ¬(networkOverride = "mainnet" ∨ networkOverride = "preprod" ∨
            networkOverride = "preview") then 1
      else
        match sendAda ext (SendAdaOptions.mk recipientAddress amt
            (if skeyFileArg = "" then none else some skeyFileArg)
            (if skeyArg = "" then none else some skeyArg)
            (if mnemonicArg = "" then none else some mnemonicArg)
            (if networkOverride = "" then none else some networkOverride)) with
        | ProcResult.exit c => c
        | ProcResult.ret _ => 0

/-- An external world whose transaction submission always throws, while the
credential lookup succeeds and the wallet is funded. -/
def extSubmitFails : SendAdaExtern :=
  SendAdaExtern.mk (Except.ok ("preprod", "api-key"))
    (fun _ => Except.error "ENOENT") (fun _ => Except.error "bad json")
    (fun _ => ["utxo1"]) (fun _ => 10000000)
    (fun _ _ _ => Except.error "Transaction submit failed")

/-- The concrete options of the C1 counterexample run: send 1 ADA signing
with a mnemonic phrase. -/
def sendAdaCexOpts : SendAdaOptions :=
  SendAdaOptions.mk "addrR" 1 none none (some "word1 word2") none

end CardanoToolbox

namespace CardanoToolbox

/-- Claim C2: `getNetwork` obeys the strict precedence chain: a non-empty host
preference is returned verbatim; otherwise the lower-cased `NETWORK`
environment value is returned when it is one of mainnet/preprod/preview;
otherwise (including any unrecognized value, which raises no error) the
default `preprod` is returned. -/
theorem getNetwork_precedence (hostPref envNETWORK : Option String) :
    (∀ p, hostPref = some p → p ≠ "" → getNetwork hostPref envNETWORK = p) ∧
    ((hostPref = none ∨ hostPref = some "") →
      ((∀ e, envNETWORK = some e →
          (strToLower e = "mainnet" ∨ strToLower e = "preprod" ∨ strToLower e = "preview") →
          getNetwork hostPref envNETWORK = strToLower e) ∧
       (∀ e, envNETWORK = some e →
          ¬(strToLower e = "mainnet" ∨ strToLower e = "preprod" ∨ strToLower e = "preview") →
          getNetwork hostPref envNETWORK = "preprod") ∧
       (envNETWORK = none → getNetwork hostPref envNETWORK = "preprod"))) := by
  refine ⟨?_, ?_⟩
  · intro p hp hne
    subst hp
    simp [getNetwork, hne]
  · intro hhost
    have hbase : getNetwork hostPref envNETWORK = getNetworkFromEnv envNETWORK := by
      rcases hhost with h | h
      · subst h; rfl
      · subst h; simp [getNetwork]
    refine ⟨?_, ?_, ?_⟩
    · intro e he hcanon
      subst he
      rw [hbase]
      simp [getNetworkFromEnv, hcanon]
    · intro e he hnc
      subst he
      rw [hbase]
      simp [getNetworkFromEnv, hnc]
    · intro he
      subst he
      rw [hbase]
      simp [getNetworkFromEnv]

/-- Witness for C2: with host preference `mainnet` and `NETWORK=preview` the
result is `mainnet`; with no host preference, `NETWORK=preview` gives
`preview`, `NETWORK=bogus` gives `preprod`, and no variable gives `preprod`. -/
theorem getNetwork_precedence_witness :
    getNetwork (some "mainnet") (some "preview") = "mainnet" ∧
    getNetwork none (some "preview") = "preview" ∧
    getNetwork none (some "bogus") = "preprod" ∧
    getNetwork none none = "preprod" := by
  refine ⟨?_, ?_, ?_, ?_⟩
  · exact (getNetwork_precedence (some "mainnet") (some "preview")).1 "mainnet" rfl (by decide)
  · exact ((getNetwork_precedence none (some "preview")).2 (Or.inl rfl)).1 "preview" rfl (by decide)
  · exact ((getNetwork_precedence none (some "bogus")).2 (Or.inl rfl)).2.1 "bogus" rfl (by decide)
  · exact ((getNetwork_precedence none none).2 (Or.inl rfl)).2.2 rfl

/-- Claim C3: for every canonical network `n` that the resolver produced,
credential lookup reads the environment key `BLOCKFROST_API_KEY_<UPPER(n)>`;
a present non-empty value is returned together with the network, and an
absent or empty value yields the error path naming that variable (no value
is returned). -/
theorem getNetworkAndApiKey_credential_lookup
    (hostPref envNETWORK : Option String) (env : Env) (n : String)
    (hn : getNetwork hostPref envNETWORK = n)
    (_hcanon : n = "mainnet" ∨ n = "preprod" ∨ n = "preview") :
    (∀ k, envLookup env ("BLOCKFROST_API_KEY_" ++ strToUpper n) = some k → k ≠ "" →
      getNetworkAndApiKey hostPref envNETWORK env = Except.ok (n, k)) ∧
    ((envLookup env ("BLOCKFROST_API_KEY_" ++ strToUpper n) = none ∨
      envLookup env ("BLOCKFROST_API_KEY_" ++ strToUpper n) = some "") →
      getNetworkAndApiKey hostPref envNETWORK env =
        Except.error ("BLOCKFROST_API_KEY_" ++ strToUpper n)) := by
  constructor
  · intro k hk hne
    unfold getNetworkAndApiKey
    rw [hn, hk]
    simp [hne]
  · intro habs
    unfold getNetworkAndApiKey
    rw [hn]
    rcases habs with h | h <;> rw [h] <;> simp

/-- Witness for C3: with the resolver yielding `preprod`, a non-empty
`BLOCKFROST_API_KEY_PREPROD` is returned, and an environment lacking the key
fails naming `BLOCKFROST_API_KEY_PREPROD`. -/
theorem getNetworkAndApiKey_credential_lookup_witness :
    getNetworkAndApiKey none none [("BLOCKFROST_API_KEY_PREPROD", "pp-key")] =
      Except.ok ("preprod", "pp-key") ∧
    getNetworkAndApiKey none none [] = Except.error "BLOCKFROST_API_KEY_PREPROD" := by
  constructor
  · exact (getNetworkAndApiKey_credential_lookup none none
      [("BLOCKFROST_API_KEY_PREPROD", "pp-key")] "preprod" rfl (by decide)).1
      "pp-key" (by decide) (by decide)
  · exact (getNetworkAndApiKey_credential_lookup none none [] "preprod" rfl
      (by decide)).2 (Or.inl (by decide))

/-- Claim C6: the generic argument parser records each flag token that has a
following token as the pair (flag name, next token) and advances past both; a
trailing flag records nothing and raises no error; unknown flags are recorded
like any other; `["--amount","5.0","--recipient","addr1"]` yields amount `5.0`
and recipient `addr1`, and `["--amount"]` yields no `amount` entry. -/
theorem parseArgs_pairs :
    (∀ a b rest, strStartsWith a "--" = true →
      parseArgsList (a :: b :: rest) = (strDrop a 2, b) :: parseArgsList rest) ∧
    (∀ a, parseArgsList [a] = []) ∧
    parseArgsList ["--amount", "5.0", "--recipient", "addr1"] =
      [("amount", "5.0"), ("recipient", "addr1")] ∧
    lookupArg (parseArgsList ["--amount", "5.0", "--recipient", "addr1"]) "amount" =
      some "5.0" ∧
    lookupArg (parseArgsList ["--amount", "5.0", "--recipient", "addr1"]) "recipient" =
      some "addr1" ∧
    lookupArg (parseArgsList ["--amount"]) "amount" = none := by
  refine ⟨?_, ?_, by decide, by decide, by decide, by decide⟩
  · intro a b rest ha
    simp [parseArgsList, ha]
  · intro a
    rfl

/-- Witness for C6: the general flag-pair rule applied at a concrete input. -/
theorem parseArgs_pairs_witness :
    parseArgsList ["--x", "y"] = [("x", "y")] := by
  have h := (parseArgs_pairs).1 "--x" "y" [] (by decide)
  simpa using h

/-- Claim C7: the payment-check status classification is a total function of
the on-chain state: `FundsLocked` is success/confirmed, `RefundRequested` is
failed, a null/absent state is pending, and every state outside the driver's
recognized vocabulary is pending as well, never an error. -/
theorem classifyOnChainState_total :
    classifyOnChainState (some "FundsLocked") = PaymentStatus.success ∧
    classifyOnChainState (some "RefundRequested") = PaymentStatus.failed ∧
    classifyOnChainState none = PaymentStatus.pending ∧
    (∀ s, s ∉ (["FundsLocked", "ResultSubmitted", "Withdrawn"] ++ failedStates) →
      classifyOnChainState (some s) = PaymentStatus.pending) := by
  refine ⟨by decide, by decide, by decide, ?_⟩
  intro s hs
  simp only [List.mem_append, List.mem_cons, List.mem_singleton, failedStates,
    not_or] at hs
  obtain ⟨⟨h1, h2, h3, _⟩, h4⟩ := hs
  simp only [classifyOnChainState, Option.getD_some, failedStates]
  rw [if_neg, if_neg, if_neg]
  · simp only [List.mem_cons, List.not_mem_nil, or_false] at h4
    intro hc
    exact absurd hc.2 (by simpa using h4)
  · intro hc
    rcases hc with hc | hc <;> simp_all
  · simp_all

/-- Witness for C7: the unrecognized state `SomethingNew` is pending. -/
theorem classifyOnChainState_total_witness :
    classifyOnChainState (some "SomethingNew") = PaymentStatus.pending := by
  exact (classifyOnChainState_total).2.2.2 "SomethingNew" (by decide)

/-- Characterization of the amount fold: the other-assets list collects the
non-lovelace entries in order, and the balance is determined by the last
lovelace entry (or the initial value when there is none). -/
theorem balance_foldl_eq (amounts : List Amount) (b : Option ℚ) (acc : List Amount) :
    amounts.foldl balanceStep (b, acc) =
      ((amounts.filter (fun a => a.unit == "lovelace")).foldl
         (fun _ a => Option.map (fun n => (n : ℚ) / 1000000) (strToNat a.quantity)) b,
       acc ++ amounts.filter (fun a => !(a.unit == "lovelace"))) := by
  induction amounts generalizing b acc with
  | nil => simp
  | cons a rest ih =>
      by_cases h : a.unit = "lovelace"
      · have hb : (a.unit == "lovelace") = true := by simp [h]
        simp [balanceStep, h, hb, List.filter_cons, ih]
      · have hb : (a.unit == "lovelace") = false := by simp [h]
        simp only [List.foldl_cons, balanceStep, if_neg h]
        rw [ih]
        simp [List.filter_cons, hb]

/-- Claim C9: when the returned amount list holds exactly one lovelace entry
of quantity `q` (value `n`), the reported ADA balance is `n / 1,000,000` and
one console line `  - <quantity> <unit>` is printed per non-lovelace entry,
in order. -/
theorem getWalletBalance_report (amounts : List Amount) (q : String) (n : Nat)
    (h1 : amounts.filter (fun a => a.unit == "lovelace") = [Amount.mk "lovelace" q])
    (h2 : strToNat q = some n) :
    getWalletBalanceReport amounts =
      (some ((n : ℚ) / 1000000),
       (amounts.filter (fun a => !(a.unit == "lovelace"))).map assetLine) := by
  unfold getWalletBalanceReport
  rw [balance_foldl_eq, h1]
  simp [h2]

/-- Witness for C9: the amount list
`[{unit: lovelace, quantity: 5000000}, {unit: assetX, quantity: 3}]` reports
an ADA balance of `5` and the single other-asset line `  - 3 assetX`. -/
theorem getWalletBalance_report_witness :
    getWalletBalanceReport [Amount.mk "lovelace" "5000000", Amount.mk "assetX" "3"] =
      (some 5, ["  - 3 assetX"]) := by
  have h := getWalletBalance_report
    [Amount.mk "lovelace" "5000000", Amount.mk "assetX" "3"] "5000000" 5000000
    (by decide) (by decide)
  rw [h, Prod.ext_iff]
  exact ⟨by norm_num, by decide⟩

/-- The address produced by the balance-check argument scan is the last
assignment recorded by `addrUpdates`, with the incoming value as default. -/
theorem scanBalanceArgs_addr (address net : String) (args : List String) :
    (scanBalanceArgs address net args).1 = (addrUpdates args).getLastD address := by
  induction address, net, args using scanBalanceArgs.induct with
  | case1 address net => simp [scanBalanceArgs, addrUpdates]
  | case2 address net a h => simp [scanBalanceArgs, addrUpdates, h]
  | case3 address net a h =>
      simp only [Bool.not_eq_true, Bool.not_eq_false] at h
      simp [scanBalanceArgs, addrUpdates, h]
  | case4 address net b rest ih =>
      simp [scanBalanceArgs, addrUpdates, ih]
      rw [← List.getLastD_eq_getLast?, ← List.getLastD_eq_getLast?, List.getLastD_cons]
  | case5 address net b rest hne ih =>
      simp [scanBalanceArgs, addrUpdates, ih]
  | case6 address net a b rest hne1 hne2 h ih =>
      simp [scanBalanceArgs, addrUpdates, hne1, hne2, h, ih]
      rw [← List.getLastD_eq_getLast?, ← List.getLastD_eq_getLast?, List.getLastD_cons]
  | case7 address net a b rest hne1 hne2 h ih =>
      simp only [Bool.not_eq_true, Bool.not_eq_false] at h
      simp [scanBalanceArgs, addrUpdates, hne1, hne2, h, ih]

/-- Counterexample for C5: the argument list `["addrA", "addrB"]` consists of
two non-flag tokens; the claim says the first (`addrA`) is used, but the scan
uses `addrB`. -/
theorem balance_address_first_nonflag_cex :
    (scanBalanceArgs "" "" ["addrA", "addrB"]).1 = "addrB" ∧
    strStartsWith "addrA" "--" = false ∧
    ("addrB" : String) ≠ "addrA" := by
  refine ⟨rfl, by decide, by decide⟩

/-- Claim C5 (amended): the address used by the balance-check tool is the
LAST address assignment of the scan — the last non-flag token or `--address`
value, in scan order — not the first non-flag token. -/
theorem balance_address_last_assignment (args : List String) :
    (scanBalanceArgs "" "" args).1 = (addrUpdates args).getLastD "" :=
  scanBalanceArgs_addr "" "" args

/-- Counterexample for C4: with no host preference and no `NETWORK` variable
the resolver yields `preprod`; invoking the balance tool with
`--network mainnet` makes the external call on `mainnet` but with the
preprod credential `pp-key`, not the mainnet credential `mm-key` stored in
the environment. -/
theorem balance_flag_credential_mismatch_cex :
    checkWalletBalanceMain ["--address", "addr1", "--network", "mainnet"]
        none none envBothKeys =
      Except.ok (BalanceCall.mk "addr1" "mainnet" "pp-key") ∧
    envLookup envBothKeys "BLOCKFROST_API_KEY_MAINNET" = some "mm-key" ∧
    ("pp-key" : String) ≠ "mm-key" := by
  refine ⟨rfl, rfl, by decide⟩

/-- Claim C4 (amended): a canonical `--network` flag overrides the network
used for the external call, but the credential passed along is the one the
resolver chain already selected for ITS network, which need not match the
flag's network. -/
theorem balance_flag_overrides_network_keeps_resolver_credential
    (addr ov : String) (hostPref envNETWORK : Option String) (env : Env) (n k : String)
    (haddr : addr ≠ "")
    (hov : ov = "mainnet" ∨ ov = "preprod" ∨ ov = "preview")
    (hcred : getNetworkAndApiKey hostPref envNETWORK env = Except.ok (n, k)) :
    checkWalletBalanceMain ["--address", addr, "--network", ov] hostPref envNETWORK env =
      Except.ok (BalanceCall.mk addr ov k) := by
  have hscan : scanBalanceArgs "" "" ["--address", addr, "--network", ov] = (addr, ov) := by
    simp [scanBalanceArgs]
  have hov' : ov ≠ "" := by
    rcases hov with h | h | h <;> subst h <;> decide
  unfold checkWalletBalanceMain
  rw [hscan]
  simp only [if_neg haddr, hcred]
  rw [if_pos ⟨hov', hov⟩]

/-- Witness for C4 (amended): resolver yields preprod with key `pp-key`; the
`--network preview` flag puts the call on preview with that preprod key. -/
theorem balance_flag_override_witness :
    checkWalletBalanceMain ["--address", "addr1", "--network", "preview"]
        none none [("BLOCKFROST_API_KEY_PREPROD", "pp-key")] =
      Except.ok (BalanceCall.mk "addr1" "preview" "pp-key") := by
  exact balance_flag_overrides_network_keeps_resolver_credential
    "addr1" "preview" none none [("BLOCKFROST_API_KEY_PREPROD", "pp-key")]
    "preprod" "pp-key" (by decide) (Or.inr (Or.inr rfl)) rfl

/-- Claim C10: when the loaded file's `config` key holds an object, that
object is the configuration for every environment (the `MASUMI_*` variables
are never consulted), and — provided a blockchain identifier was found — a
missing `paymentServiceUrl` or `apiKey` in that object exits naming it, for
every environment, including ones where the variable is set. -/
theorem masumiCheck_fileConfig_verbatim (fileData : FileData) (c : JsConfig)
    (hc : fileData.config = some c)
    (hid : isFalsy fileData.blockchainIdentifier = false) :
    (∀ env : MasumiEnv, resolveFileConfig fileData env = c) ∧
    (∀ env : MasumiEnv, isFalsy c.paymentServiceUrl = true →
      masumiCheckMainFile fileData env = CheckOutcome.exitMissingParam "paymentServiceUrl") ∧
    (∀ env : MasumiEnv, isFalsy c.paymentServiceUrl = false → isFalsy c.apiKey = true →
      masumiCheckMainFile fileData env = CheckOutcome.exitMissingParam "apiKey") := by
  have hres : ∀ env : MasumiEnv, resolveFileConfig fileData env = c := by
    intro env
    unfold resolveFileConfig
    rw [hc]
  refine ⟨hres, ?_, ?_⟩
  · intro env hmiss
    simp [masumiCheckMainFile, hres env, hid, hmiss]
  · intro env hurl hkey
    simp [masumiCheckMainFile, hres env, hid, hurl, hkey]

/-- Witness for C10: a file whose `config` object lacks `paymentServiceUrl`
is used verbatim, and the tool exits naming `paymentServiceUrl` although the
environment defines all three `MASUMI_*` variables. -/
theorem masumiCheck_fileConfig_verbatim_witness :
    resolveFileConfig
        (FileData.mk (some (JsConfig.mk none none (some "Preprod"))) (some "id-123"))
        (MasumiEnv.mk (some "http://svc") (some "env-key") (some "Mainnet")) =
      JsConfig.mk none none (some "Preprod") ∧
    masumiCheckMainFile
        (FileData.mk (some (JsConfig.mk none none (some "Preprod"))) (some "id-123"))
        (MasumiEnv.mk (some "http://svc") (some "env-key") (some "Mainnet")) =
      CheckOutcome.exitMissingParam "paymentServiceUrl" := by
  have h := masumiCheck_fileConfig_verbatim
    (FileData.mk (some (JsConfig.mk none none (some "Preprod"))) (some "id-123"))
    (JsConfig.mk none none (some "Preprod")) rfl (by decide)
  exact ⟨h.1 _, h.2.1 _ (by decide)⟩

/-- Once the credential lookup has succeeded, `sendAda` catches every failure
of its try block and returns a value; it never exits the process itself. -/
theorem sendAda_ret_of_cred_ok (ext : SendAdaExtern) (opts : SendAdaOptions)
    (p : String × String) (h : ext.networkAndApiKey = Except.ok p) :
    ∃ v, sendAda ext opts = ProcResult.ret v := by
  obtain ⟨network, apiKey⟩ := p
  cases hsel : selectWallet ext opts (jsOrStr opts.network network) with
  | error e => exact ⟨none, by simp [sendAda, h, hsel]⟩
  | ok wallet =>
      by_cases hu : ext.getUtxos wallet = []
      · exact ⟨none, by simp [sendAda, h, hsel, hu]⟩
      · by_cases hb : ((ext.getBalanceLovelace wallet : ℚ) / 1000000) < opts.amountAda
        · exact ⟨none, by simp [sendAda, h, hsel, hu, hb]⟩
        · cases hst : ext.submitTx wallet opts.recipientAddress
              (Int.floor (opts.amountAda * 1000000)) with
          | error e => exact ⟨none, by simp [sendAda, h, hsel, hu, hb, hst]⟩
          | ok tx => exact ⟨some tx, by simp [sendAda, h, hsel, hu, hb, hst]⟩

/-- Counterexample for C1: in a run of the ADA-transfer tool whose external
transaction submission throws, the error is caught (`sendAda` returns null)
and the process finishes with exit status 0, not non-zero. -/
theorem sendAda_caught_failure_exit_zero_cex :
    sendAda extSubmitFails sendAdaCexOpts = ProcResult.ret none ∧
    extSubmitFails.submitTx (createWalletFromMnemonic "word1 word2" "preprod")
        "addrR" 1000000 = Except.error "Transaction submit failed" ∧
    sendAdaMainExit extSubmitFails "addrR" (some 1) "" "" "word1 word2" "" = 0 := by
  have hkey : extSubmitFails.networkAndApiKey = Except.ok ("preprod", "api-key") := rfl
  have hnet : jsOrStr sendAdaCexOpts.network "preprod" = "preprod" := rfl
  have hw : selectWallet extSubmitFails sendAdaCexOpts "preprod" =
      Except.ok (createWalletFromMnemonic "word1 word2" "preprod") := rfl
  have hutxo : extSubmitFails.getUtxos (createWalletFromMnemonic "word1 word2" "preprod") =
      ["utxo1"] := rfl
  have hbalv : extSubmitFails.getBalanceLovelace
      (createWalletFromMnemonic "word1 word2" "preprod") = 10000000 := rfl
  have hamt : sendAdaCexOpts.amountAda = 1 := rfl
  have haddr : sendAdaCexOpts.recipientAddress = "addrR" := rfl
  have hsub : ∀ i : Int, extSubmitFails.submitTx
      (createWalletFromMnemonic "word1 word2" "preprod") "addrR" i =
      Except.error "Transaction submit failed" := fun _ => rfl
  have hq1 : ¬ (((10000000 : Nat) : ℚ) / 1000000 < (1 : ℚ)) := by norm_num
  have h1 : sendAda extSubmitFails sendAdaCexOpts = ProcResult.ret none := by
    simp only [sendAda, hkey, hnet, hw, hutxo, hbalv, hamt, haddr]
    rw [if_neg (by simp : ¬ (["utxo1"] : List String) = [])]
    rw [if_neg hq1]
    simp only [hsub]
  refine ⟨h1, hsub 1000000, ?_⟩
  have hopts : SendAdaOptions.mk "addrR" (1 : ℚ) none none (some "word1 word2") none =
      sendAdaCexOpts := rfl
  have hq2 : ¬ ((1 : ℚ) ≤ 0) := by norm_num
  simp only [sendAdaMainExit, hopts, h1, hq2]
  simp [h1, hopts]

/-- Claim C1 (amended): once the ADA-transfer CLI's validations pass and the
credential lookup succeeds, the process exits 0 whether or not the external
send succeeded — every thrown failure of the send is caught and still ends
in exit status 0 (so exit 0 does not imply success; the balance-check and
payment tools, by contrast, exit 1 on caught failures). -/
theorem sendAdaMain_exit_zero_after_validation
    (ext : SendAdaExtern) (rcp : String) (amt : ℚ) (sf sk m nw : String)
    (p : String × String)
    (hrcp : rcp ≠ "") (hamt : ¬ amt ≤ 0)
    (hsig : ¬(sf = "" ∧ sk = "" ∧ m = ""))
    (hnw : ¬(nw ≠ "" ∧ ¬(nw = "mainnet" ∨ nw = "preprod" ∨ nw = "preview")))
    (hcred : ext.networkAndApiKey = Except.ok p) :
    sendAdaMainExit ext rcp (some amt) sf sk m nw = 0 := by
  obtain ⟨v, hv⟩ := sendAda_ret_of_cred_ok ext
    (SendAdaOptions.mk rcp amt
      (if sf = "" then none else some sf)
      (if sk = "" then none else some sk)
      (if m = "" then none else some m)
      (if nw = "" then none else some nw)) p hcred
  simp [sendAdaMainExit, hrcp, hamt, hsig, hv]
  intro h0 h1 h2
  push_neg at hnw
  rcases hnw h0 with h | h | h
  · exact absurd h h1
  · exact absurd h h2
  · exact h

/-- Witness for C1 (amended): a concrete validated invocation signing with a
skey string, against the always-failing submitter, exits 0. -/
theorem sendAdaMain_exit_zero_witness :
    sendAdaMainExit extSubmitFails "addrX" (some 2) "" "deadbeef" "" "" = 0 := by
  exact sendAdaMain_exit_zero_after_validation extSubmitFails "addrX" 2 "" "deadbeef" "" ""
    ("preprod", "api-key") (by decide) (by norm_num) (by decide) (by decide) rfl

/-- Claim C8: the signing method follows the precedence
mnemonic > skey-file > skey — a truthy mnemonic makes the skey-file and skey
options irrelevant, and with no mnemonic a truthy skey-file makes the skey
option irrelevant — and the CLI emits its precedence warning exactly when
more than one of the three methods is provided. -/
theorem sendAda_signing_precedence
    (ext : SendAdaExtern) (rcp : String) (amt : ℚ) (fn : String)
    (sf sk nw : Option String) (m : String) (hm : m ≠ "") :
    (selectWallet ext (SendAdaOptions.mk rcp amt sf sk (some m) nw) fn =
      selectWallet ext (SendAdaOptions.mk rcp amt none none (some m) nw) fn) ∧
    (∀ f, f ≠ "" →
      selectWallet ext (SendAdaOptions.mk rcp amt (some f) sk none nw) fn =
      selectWallet ext (SendAdaOptions.mk rcp amt (some f) none none nw) fn) ∧
    (∀ a b c : String, sendAdaWarnsMultiple a b c = true ↔
      ((a ≠ "" ∧ b ≠ "") ∨ (a ≠ "" ∧ c ≠ "") ∨ (b ≠ "" ∧ c ≠ ""))) := by
  have hfal : isFalsy (some m) = false := by simp [isFalsy, hm]
  refine ⟨?_, ?_, ?_⟩
  · simp [selectWallet, hfal]
  · intro f hf
    simp [selectWallet, isFalsy, hf]
  · intro a b c
    by_cases h1 : a = "" <;> by_cases h2 : b = "" <;> by_cases h3 : c = "" <;>
      simp [sendAdaWarnsMultiple, h1, h2, h3]

/-- Witness for C8: with both a mnemonic and an skey file provided, the
wallet selection equals the one with only the mnemonic, and the warning
predicate fires for the skey-file/mnemonic pair. -/
theorem sendAda_signing_precedence_witness :
    (selectWallet extSubmitFails
        (SendAdaOptions.mk "r" 1 (some "f.skey") (some "aa") (some "word1 word2") none)
        "preprod" =
      selectWallet extSubmitFails
        (SendAdaOptions.mk "r" 1 none none (some "word1 word2") none) "preprod") ∧
    sendAdaWarnsMultiple "f.skey" "" "word1 word2" = true := by
  have h := sendAda_signing_precedence extSubmitFails "r" 1 "preprod"
    (some "f.skey") (some "aa") none "word1 word2" (by decide)
  refine ⟨h.1, ?_⟩
  exact (h.2.2 "f.skey" "" "word1 word2").mpr (Or.inr (Or.inl ⟨by decide, by decide⟩))

end CardanoToolbox
